import Mathlib

/-!
KCJoin: the argument loop and the join / unjoin logic of `Run`

A shallow embedding of `KCJoin.cpp` (`Run`, `PrintError`, `main`).

* The option parser (`CSimpleOpt`) is represented by the finite sequence of
  tokens it yields: one `ParsedOpt` for every call of `Next()` that returns
  true, holding what `LastError()`, `OptionId()` and `OptionArg()` return
  for that token.
* The operating-system primitives are represented by the values they return
  (`Env`); every invocation is appended to a call log, and every `wprintf`
  is appended to the output.  `Run` invokes each primitive at most once
  (`Run_calls_length_le_one`), so one return value per primitive describes
  every possible behaviour of the primitives during a run.
-/

namespace KCJoin

/-! ## Constants -/

/-- Option id of `-host` (enum at line 17 of `KCJoin.cpp`). -/
def OPT_HOST : Int := 0
/-- Option id of `-user`. -/
def OPT_USER : Int := 1
/-- Option id of `-pass`. -/
def OPT_PASS : Int := 2
/-- Option id of `-ou`. -/
def OPT_OU : Int := 3
/-- Option id of `-domain`. -/
def OPT_DOMAIN : Int := 4
/-- Option id of `-unjoin`. -/
def OPT_UNJOIN : Int := 5

/-- Modelled from the spec: `SimpleOpt.h` is not among the sources. `SO_SUCCESS`
is the status `LastError()` reports for a token that matches the grammar; the
development only ever compares a status with it. -/
def SO_SUCCESS : Int := 0

/-- Windows SDK value (`lmjoin.h`, reached through `LM.h`): join the domain. -/
def NETSETUP_JOIN_DOMAIN : Nat := 0x00000001
/-- Windows SDK value (`lmjoin.h`): create the computer account. -/
def NETSETUP_ACCT_CREATE : Nat := 0x00000002
/-- Windows SDK value (`lmjoin.h`): delete the computer account on unjoin. -/
def NETSETUP_ACCT_DELETE : Nat := 0x00000004
/-- Windows SDK value (`lmjoin.h`): join using the new computer name. -/
def NETSETUP_JOIN_WITH_NEW_NAME : Nat := 0x00000400
/-- Windows SDK value (`lmerr.h`): the success status of the `Net*` calls. -/
def NERR_Success : Nat := 0

/-! ## Data model -/

/-- One token yielded by the option parser: the results of `LastError()`,
`OptionId()` and `OptionArg()` after a call of `Next()` that returned true. -/
structure ParsedOpt where
  LastError : Int
  OptionId : Int
  OptionArg : String
  deriving DecidableEq

/-- The local variables of `Run` that the argument loop assigns
(lines 73 and 75). -/
structure Locals where
  fJoin : Bool
  cszHost : String
  cszUser : String
  cszPass : String
  cszOu : String
  cszDomain : String
  deriving DecidableEq

/-- An invocation of one of the three privileged primitives, with the
arguments it received (the leading `NULL` server argument of the `Net*` calls
and the fixed name type of `SetComputerNameEx` are left out). -/
inductive Call where
  | SetComputerNameEx (lpBuffer : String)
  | NetJoinDomain (lpDomain lpMachineAccountOU lpAccount lpPassword : String)
      (fJoinOptions : Nat)
  | NetUnjoinDomain (lpAccount lpPassword : String) (fUnjoinOptions : Nat)
  deriving DecidableEq

/-- The values the environment returns to the program. -/
structure Env where
  /-- Result of `SetComputerNameEx` (true: the rename succeeded). -/
  SetComputerNameEx : Bool
  /-- Status returned by `NetJoinDomain`. -/
  NetJoinDomain : Nat
  /-- Status returned by `NetUnjoinDomain`. -/
  NetUnjoinDomain : Nat
  /-- Value returned by `GetLastError` (a `DWORD`). -/
  GetLastError : Nat
  /-- Text that `%s` prints for the `lpMessage` set by `FormatMessage`. -/
  FormatMessage : String
  /-- The `HRESULT` of `CoInitializeEx` (a signed 32-bit value). -/
  CoInitializeEx : Int
  /-- The `HRESULT` of `_Module.Init`. -/
  ModuleInit : Int
  /-- Whether `CommandLineToArgvW` returned a non-null array. -/
  CommandLineToArgvW : Bool

/-- The observable state: text written by `wprintf`, in order, and the
privileged primitives invoked, in order. -/
structure World where
  out : List String
  calls : List Call
  deriving DecidableEq

/-- Append one `wprintf` to the output. -/
def World.wprintf (w : World) (s : String) : World :=
  { w with out := w.out ++ [s] }

/-- Record the invocation of a primitive. -/
def World.invoke (w : World) (c : Call) : World :=
  { w with calls := w.calls ++ [c] }

/-! ## Formatting -/

/-- The conversion `%ld` applied to a `DWORD`: `long` has 32 bits, so values
from `2^31` on are printed as negative numbers. -/
def fmt_ld (n : Nat) : String :=
  let v := n % 2 ^ 32
  if v < 2 ^ 31 then toString v else "-" ++ toString (2 ^ 32 - v)

/-- The conversion `%x` applied to an `HRESULT`: the 32-bit pattern in
lower-case hexadecimal. -/
def fmt_x (hr : Int) : String :=
  String.mk (Nat.toDigits 16 (hr % 2 ^ 32).toNat)

/-! ## The program -/

/-- The function `PrintError` (lines 40-56): print the last error code with its message. -/
def PrintError (env : Env) (w : World) : World :=
  let dwError := env.GetLastError
  let lpMessage := env.FormatMessage
  w.wprintf ("Error " ++ fmt_ld dwError ++ ": " ++ lpMessage)

/-- The values of the locals on entry to the loop (lines 73 and 75). -/
def Locals.init : Locals :=
  { fJoin := true, cszHost := "", cszUser := "", cszPass := "", cszOu := "",
    cszDomain := "" }

/-- One iteration of the body of the `while` loop (lines 82-94). -/
def loopBody (l : Locals) (o : ParsedOpt) : Locals :=
  if o.LastError = SO_SUCCESS then
    if o.OptionId = OPT_HOST then { l with cszHost := o.OptionArg }
    else if o.OptionId = OPT_USER then { l with cszUser := o.OptionArg }
    else if o.OptionId = OPT_PASS then { l with cszPass := o.OptionArg }
    else if o.OptionId = OPT_OU then { l with cszOu := o.OptionArg }
    else if o.OptionId = OPT_DOMAIN then { l with cszDomain := o.OptionArg }
    else if o.OptionId = OPT_UNJOIN then { l with fJoin := false }
    else l
  else l

/-- The `while (csoArgs.Next())` loop (lines 79-95) started from the locals
`l`. -/
def collectFrom (l : Locals) (opts : List ParsedOpt) : Locals :=
  opts.foldl loopBody l

/-- The locals after the loop of `Run`. -/
def collect (opts : List ParsedOpt) : Locals :=
  collectFrom Locals.init opts

/-- The rename block (lines 107-115, repeated at lines 136-144). The result is
`some r` when the block executes `return r`, and `none` when control leaves
the block at its end. The braces after the inner `if` are not an `else`
branch: they are a block of their own that follows the `if` statement. -/
def renameBlock (env : Env) (cszHost : String) (w : World) : Option Bool × World :=
  if !cszHost.isEmpty then
    let w1 := w.invoke (Call.SetComputerNameEx cszHost)
    let w2 :=
      if env.SetComputerNameEx then
        w1.wprintf ("Successfully changed computer name: " ++ cszHost)
      else w1
    let w3 := w2.wprintf ("ERROR: Failed to SetComputerNameEx! Host: " ++ cszHost
      ++ " GLE: " ++ fmt_ld env.GetLastError)
    (some false, w3)
  else (none, w)

/-- The part of `Run` after the loop (lines 98-153), from the locals `l`. -/
def runLocals (env : Env) (l : Locals) (w : World) : Bool × World :=
  if l.fJoin then
    if l.cszUser.isEmpty || l.cszPass.isEmpty || l.cszOu.isEmpty || l.cszDomain.isEmpty then
      (false, w)
    else
      match renameBlock env l.cszHost w with
      | (some r, w1) => (r, w1)
      | (none, w1) =>
        let dwJoinOpts := NETSETUP_JOIN_DOMAIN ||| NETSETUP_ACCT_CREATE
        let dwJoinOpts :=
          if !l.cszHost.isEmpty then dwJoinOpts ||| NETSETUP_JOIN_WITH_NEW_NAME
          else dwJoinOpts
        let w2 := w1.invoke
          (Call.NetJoinDomain l.cszDomain l.cszOu l.cszUser l.cszPass dwJoinOpts)
        let statusJoinResult := env.NetJoinDomain
        if statusJoinResult = NERR_Success then
          (true, w2.wprintf ("Joined " ++ l.cszDomain ++ " domain using " ++ l.cszUser
            ++ " in container " ++ l.cszOu ++ " "))
        else
          -- `PrintError()`, then control reaches `return true` at line 153
          (true, PrintError env w2)
  else
    if l.cszUser.isEmpty || l.cszPass.isEmpty then
      (false, w)
    else
      match renameBlock env l.cszHost w with
      | (some r, w1) => (r, w1)
      | (none, w1) =>
        let w2 := w1.invoke
          (Call.NetUnjoinDomain l.cszUser l.cszPass NETSETUP_ACCT_DELETE)
        let result := env.NetUnjoinDomain
        if result = NERR_Success then
          (true, w2.wprintf ("Unjoined domain using " ++ l.cszUser))
        else
          (true, PrintError env w2)

/-- The function `Run` (lines 70-154) on the tokens `opts` yielded by the parser, from the
world `w`: the returned `bool` and the world afterwards. -/
def RunFrom (env : Env) (opts : List ParsedOpt) (w : World) : Bool × World :=
  runLocals env (collect opts) w

/-- The function `Run` started with no output and no call made. -/
def Run (env : Env) (opts : List ParsedOpt) : Bool × World :=
  RunFrom env opts { out := [], calls := [] }

/-- The macro `FAILED(hr)`: the `HRESULT` is negative. -/
def FAILED (hr : Int) : Bool := decide (hr < 0)

/-- The function `main` (lines 166-226): the exit code and the world at exit. `opts` are
the tokens `CSimpleOpt` yields for the command line. -/
def main (env : Env) (opts : List ParsedOpt) : Int × World :=
  let w : World := { out := [], calls := [] }
  if FAILED env.CoInitializeEx then
    (1, w.wprintf ("Failed to initialize COM subsystem! HRESULT: " ++ fmt_x env.CoInitializeEx))
  else if FAILED env.ModuleInit then
    (1, w.wprintf ("Failed to initialize WTL! HRESULT: " ++ fmt_x env.ModuleInit))
  else if !env.CommandLineToArgvW then
    (1, w.wprintf ("Failed to process the command line! GLE: " ++ fmt_ld env.GetLastError))
  else
    let r := RunFrom env opts w
    let iReturn : Int := if r.1 then 0 else 1
    if iReturn = 0 then (iReturn, r.2.wprintf "Success!") else (iReturn, r.2)

/-! ## Observations on a run -/

/-- The rename calls of a log. -/
def renameCalls (cs : List Call) : List Call :=
  cs.filter fun c => match c with
    | Call.SetComputerNameEx _ => true
    | _ => false

/-- The join-domain calls of a log. -/
def joinCalls (cs : List Call) : List Call :=
  cs.filter fun c => match c with
    | Call.NetJoinDomain _ _ _ _ _ => true
    | _ => false

/-- The unjoin-domain calls of a log. -/
def unjoinCalls (cs : List Call) : List Call :=
  cs.filter fun c => match c with
    | Call.NetUnjoinDomain _ _ _ => true
    | _ => false

/-- A successfully parsed occurrence of the option `id`. -/
def isOcc (id : Int) (o : ParsedOpt) : Bool :=
  decide (o.LastError = SO_SUCCESS) && decide (o.OptionId = id)

/-- The argument of the last successfully parsed occurrence of the option
`id` in the sequence, and the empty string when there is none (the
specification's "last occurrence wins"). -/
def lastArg (id : Int) (opts : List ParsedOpt) : String :=
  match (opts.filter (isOcc id)).getLast? with
  | some o => o.OptionArg
  | none => ""

/-- A token `-name=value` (or `-name`) accepted by the parser. -/
def tok (id : Int) (arg : String) : ParsedOpt :=
  { LastError := SO_SUCCESS, OptionId := id, OptionArg := arg }

/-- An environment for examples: every primitive succeeds. -/
def envOk : Env :=
  { SetComputerNameEx := true, NetJoinDomain := 0, NetUnjoinDomain := 0,
    GetLastError := 0, FormatMessage := "The operation completed successfully.",
    CoInitializeEx := 0, ModuleInit := 0, CommandLineToArgvW := true }

/-- An environment for examples: every primitive fails with error 5. -/
def envFail : Env :=
  { SetComputerNameEx := false, NetJoinDomain := 5, NetUnjoinDomain := 5,
    GetLastError := 5, FormatMessage := "Access is denied.",
    CoInitializeEx := 0, ModuleInit := 0, CommandLineToArgvW := true }

/-- Two tokens that are the same, or that are both an accepted `-pass` with a
non-empty argument. -/
def samePassOnly (a b : ParsedOpt) : Bool :=
  decide (a = b) ||
    (isOcc OPT_PASS a && isOcc OPT_PASS b && !a.OptionArg.isEmpty && !b.OptionArg.isEmpty)

/-- Two token sequences that differ only in the non-empty values given to
`-pass`. -/
def differOnlyInPass : List ParsedOpt → List ParsedOpt → Bool
  | [], [] => true
  | a :: as, b :: bs => samePassOnly a b && differOnlyInPass as bs
  | _, _ => false

/-- Two states of the locals that agree on everything but the text of the
password, which is empty in both or in neither. -/
def agreeExceptPass (l1 l2 : Locals) : Prop :=
  l1.fJoin = l2.fJoin ∧ l1.cszHost = l2.cszHost ∧ l1.cszUser = l2.cszUser ∧
    l1.cszOu = l2.cszOu ∧ l1.cszDomain = l2.cszDomain ∧
    l1.cszPass.isEmpty = l2.cszPass.isEmpty

/-- A field required for the selected mode is empty: user, password,
organizational unit or domain when joining; user or password when
unjoining. -/
def missingRequired (l : Locals) : Bool :=
  if l.fJoin then
    l.cszUser.isEmpty || l.cszPass.isEmpty || l.cszOu.isEmpty || l.cszDomain.isEmpty
  else
    l.cszUser.isEmpty || l.cszPass.isEmpty

/-- The text of the rename-failure message (lines 112 and 141). -/
def renameFailureMessage (env : Env) (cszHost : String) : String :=
  "ERROR: Failed to SetComputerNameEx! Host: " ++ cszHost ++ " GLE: " ++ fmt_ld env.GetLastError

/-- Example command line: `-user=u -pass=p -ou=o -domain=d`. -/
def joinOpts : List ParsedOpt :=
  [tok OPT_USER "u", tok OPT_PASS "p", tok OPT_OU "o", tok OPT_DOMAIN "d"]

/-- Example command line: `-host=h -user=u -pass=p -ou=o -domain=d`. -/
def joinHostOpts : List ParsedOpt :=
  tok OPT_HOST "h" :: joinOpts

/-- Example command line: `-unjoin -user=u -pass=p`. -/
def unjoinOpts : List ParsedOpt :=
  [tok OPT_UNJOIN "", tok OPT_USER "u", tok OPT_PASS "p"]

/-- Example command line: `-unjoin -user=u -pass=p -host=h`. -/
def unjoinHostOpts : List ParsedOpt :=
  unjoinOpts ++ [tok OPT_HOST "h"]

/-- Example of a rejected token, such as `-bogus=1`: the parser reports a
status other than `SO_SUCCESS`. -/
def bogus : ParsedOpt :=
  { LastError := -1, OptionId := -1, OptionArg := "" }

/-! ## The argument loop -/

theorem collectFrom_append (l : Locals) (xs ys : List ParsedOpt) :
    collectFrom l (xs ++ ys) = collectFrom (collectFrom l xs) ys := by
  simp [collectFrom, List.foldl_append]

theorem collectFrom_snoc (l : Locals) (xs : List ParsedOpt) (o : ParsedOpt) :
    collectFrom l (xs ++ [o]) = loopBody (collectFrom l xs) o := by
  simp [collectFrom, List.foldl_append]

theorem loopBody_of_error (l : Locals) (o : ParsedOpt) (h : o.LastError ≠ SO_SUCCESS) :
    loopBody l o = l := by
  simp [loopBody, h]

theorem lastArg_snoc (id : Int) (xs : List ParsedOpt) (o : ParsedOpt) :
    lastArg id (xs ++ [o]) = if isOcc id o then o.OptionArg else lastArg id xs := by
  unfold lastArg
  by_cases h : isOcc id o = true
  · simp [List.filter_append, h]
  · simp [List.filter_append, h]

theorem loopBody_fJoin (l : Locals) (o : ParsedOpt) :
    (loopBody l o).fJoin = (l.fJoin && !isOcc OPT_UNJOIN o) := by
  by_cases he : o.LastError = SO_SUCCESS
  · simp only [loopBody, isOcc, he, if_true, decide_True, Bool.true_and]
    simp only [OPT_HOST, OPT_USER, OPT_PASS, OPT_OU, OPT_DOMAIN, OPT_UNJOIN]
    split_ifs <;> simp_all
  · simp [loopBody, isOcc, he]

theorem collectFrom_fJoin (l : Locals) (opts : List ParsedOpt) :
    (collectFrom l opts).fJoin = (l.fJoin && opts.all fun o => !isOcc OPT_UNJOIN o) := by
  induction opts generalizing l with
  | nil => simp [collectFrom]
  | cons o os ih =>
    have h := ih (loopBody l o)
    simp only [collectFrom, List.foldl_cons, List.all_cons] at h ⊢
    rw [h, loopBody_fJoin, Bool.and_assoc]

/-- The flag `fJoin` is cleared exactly when an accepted `-unjoin` token occurs. -/
theorem collect_fJoin (opts : List ParsedOpt) :
    (collect opts).fJoin = true ↔ ∀ o ∈ opts, isOcc OPT_UNJOIN o = false := by
  simp [collect, collectFrom_fJoin, Locals.init]

theorem loopBody_agreeExceptPass (l1 l2 : Locals) (a b : ParsedOpt)
    (hl : agreeExceptPass l1 l2) (hab : samePassOnly a b = true) :
    agreeExceptPass (loopBody l1 a) (loopBody l2 b) := by
  obtain ⟨h1, h2, h3, h4, h5, h6⟩ := hl
  unfold samePassOnly at hab
  by_cases hEq : a = b
  · subst hEq
    unfold agreeExceptPass loopBody
    split_ifs <;> simp_all
  · simp only [hEq, decide_False, Bool.false_or, Bool.and_eq_true, isOcc, decide_eq_true_eq,
      Bool.not_eq_true'] at hab
    obtain ⟨⟨⟨⟨ha1, ha2⟩, hb1, hb2⟩, ha3⟩, hb3⟩ := hab
    simp [agreeExceptPass, loopBody, ha1, ha2, hb1, hb2, ha3, hb3, OPT_PASS, OPT_HOST,
      OPT_USER, h1, h2, h3, h4, h5]

theorem collectFrom_agreeExceptPass (xs ys : List ParsedOpt) (l1 l2 : Locals)
    (hl : agreeExceptPass l1 l2) (h : differOnlyInPass xs ys = true) :
    agreeExceptPass (collectFrom l1 xs) (collectFrom l2 ys) := by
  induction xs generalizing ys l1 l2 with
  | nil =>
    cases ys with
    | nil => simpa [collectFrom] using hl
    | cons b bs => simp [differOnlyInPass] at h
  | cons a as ih =>
    cases ys with
    | nil => simp [differOnlyInPass] at h
    | cons b bs =>
      simp only [differOnlyInPass, Bool.and_eq_true] at h
      simp only [collectFrom, List.foldl_cons]
      exact ih bs _ _ (loopBody_agreeExceptPass l1 l2 a b hl h.1) h.2

theorem runLocals_agreeExceptPass (env : Env) (l1 l2 : Locals) (w : World)
    (hl : agreeExceptPass l1 l2) :
    (runLocals env l1 w).1 = (runLocals env l2 w).1 ∧
      (runLocals env l1 w).2.out = (runLocals env l2 w).2.out := by
  obtain ⟨h1, h2, h3, h4, h5, h6⟩ := hl
  unfold runLocals renameBlock PrintError
  rw [h1, h2, h3, h4, h5, h6]
  by_cases hj : env.NetJoinDomain = NERR_Success <;>
    by_cases hu : env.NetUnjoinDomain = NERR_Success <;>
    split_ifs <;> simp [World.wprintf, World.invoke, hj, hu]

/-- Claim C7: the argument loop is last-wins. For every sequence of tokens,
each of the five string buffers (`-host`, `-user`, `-pass`, `-ou`, `-domain`)
holds after the loop the argument of the last accepted occurrence of its
option, and is empty when the option never occurs; `-user=a -user=b`
resolves user to `b`. -/
theorem collect_eq_lastArg (opts : List ParsedOpt) :
    ((collect opts).cszHost = lastArg OPT_HOST opts ∧
      (collect opts).cszUser = lastArg OPT_USER opts ∧
      (collect opts).cszPass = lastArg OPT_PASS opts ∧
      (collect opts).cszOu = lastArg OPT_OU opts ∧
      (collect opts).cszDomain = lastArg OPT_DOMAIN opts) ∧
    (collect [tok OPT_USER "a", tok OPT_USER "b"]).cszUser = "b" := by
  refine ⟨?_, by decide⟩
  induction opts using List.reverseRecOn with
  | nil => simp [collect, collectFrom, Locals.init, lastArg]
  | append_singleton xs o ih =>
    obtain ⟨h1, h2, h3, h4, h5⟩ := ih
    unfold collect at *
    simp only [collectFrom_snoc, lastArg_snoc]
    by_cases he : o.LastError = SO_SUCCESS
    · simp only [loopBody, isOcc, he, if_true, decide_True, Bool.true_and, decide_eq_true_eq]
      simp only [OPT_HOST, OPT_USER, OPT_PASS, OPT_OU, OPT_DOMAIN, OPT_UNJOIN] at *
      split_ifs <;> simp_all
    · simp [loopBody, isOcc, he, h1, h2, h3, h4, h5]

/-! ## The body of `Run` after the loop -/

theorem runLocals_missing (env : Env) (l : Locals) (w : World)
    (h : missingRequired l = true) : runLocals env l w = (false, w) := by
  unfold missingRequired at h
  unfold runLocals
  split_ifs at h ⊢ <;> simp_all

theorem runLocals_host (env : Env) (l : Locals) (w : World)
    (hreq : missingRequired l = false) (hhost : l.cszHost.isEmpty = false) :
    runLocals env l w =
      (false,
        { out := w.out ++
            (if env.SetComputerNameEx then
              ["Successfully changed computer name: " ++ l.cszHost] else []) ++
            [renameFailureMessage env l.cszHost],
          calls := w.calls ++ [Call.SetComputerNameEx l.cszHost] }) := by
  unfold missingRequired at hreq
  unfold runLocals renameBlock renameFailureMessage
  cases hs : env.SetComputerNameEx <;>
    split_ifs at hreq ⊢ <;> simp_all [World.wprintf, World.invoke]

theorem runLocals_join (env : Env) (l : Locals) (w : World)
    (hjoin : l.fJoin = true) (hreq : missingRequired l = false)
    (hhost : l.cszHost.isEmpty = true) :
    (runLocals env l w).1 = true ∧
      (runLocals env l w).2.calls = w.calls ++
        [Call.NetJoinDomain l.cszDomain l.cszOu l.cszUser l.cszPass
          (NETSETUP_JOIN_DOMAIN ||| NETSETUP_ACCT_CREATE)] := by
  unfold missingRequired at hreq
  unfold runLocals renameBlock PrintError
  by_cases hj : env.NetJoinDomain = NERR_Success <;>
    split_ifs at hreq ⊢ <;> simp_all [World.wprintf, World.invoke]

theorem runLocals_unjoin (env : Env) (l : Locals) (w : World)
    (hjoin : l.fJoin = false) (hreq : missingRequired l = false)
    (hhost : l.cszHost.isEmpty = true) :
    (runLocals env l w).1 = true ∧
      (runLocals env l w).2.calls = w.calls ++
        [Call.NetUnjoinDomain l.cszUser l.cszPass NETSETUP_ACCT_DELETE] := by
  unfold missingRequired at hreq
  unfold runLocals renameBlock PrintError
  by_cases hj : env.NetUnjoinDomain = NERR_Success <;>
    split_ifs at hreq ⊢ <;> simp_all [World.wprintf, World.invoke]

/-- Every run invokes at most one privileged primitive, so no primitive is
invoked twice. -/
theorem Run_calls_length_le_one (env : Env) (opts : List ParsedOpt) :
    (Run env opts).2.calls.length ≤ 1 := by
  unfold Run RunFrom
  by_cases hreq : missingRequired (collect opts) = true
  · simp [runLocals_missing env _ _ hreq]
  · simp only [Bool.not_eq_true] at hreq
    by_cases hhost : (collect opts).cszHost.isEmpty = true
    · cases hj : (collect opts).fJoin
      · simp [(runLocals_unjoin env _ _ hj hreq hhost).2]
      · simp [(runLocals_join env _ _ hj hreq hhost).2]
    · simp only [Bool.not_eq_true] at hhost
      simp [runLocals_host env _ _ hreq hhost]

/-- The exit code of `main` is 0 exactly when initialisation succeeds and
`Run` returns true. -/
theorem main_exit_zero_iff (env : Env) (opts : List ParsedOpt) :
    (main env opts).1 = 0 ↔
      FAILED env.CoInitializeEx = false ∧ FAILED env.ModuleInit = false ∧
        env.CommandLineToArgvW = true ∧ (Run env opts).1 = true := by
  unfold main Run
  cases hr : (RunFrom env opts { out := [], calls := [] }).1 <;>
    split_ifs <;> simp_all

/-- The function `Run` returns true exactly when it reaches the join-domain or the
unjoin-domain call, whatever status that call returns. -/
theorem Run_true_iff (env : Env) (opts : List ParsedOpt) :
    (Run env opts).1 = true ↔
      missingRequired (collect opts) = false ∧ (collect opts).cszHost.isEmpty = true := by
  unfold Run RunFrom
  by_cases hreq : missingRequired (collect opts) = true
  · simp [runLocals_missing env _ _ hreq, hreq]
  · simp only [Bool.not_eq_true] at hreq
    by_cases hhost : (collect opts).cszHost.isEmpty = true
    · cases hj : (collect opts).fJoin
      · simp [(runLocals_unjoin env _ _ hj hreq hhost).1, hreq, hhost]
      · simp [(runLocals_join env _ _ hj hreq hhost).1, hreq, hhost]
    · simp only [Bool.not_eq_true] at hhost
      simp [runLocals_host env _ _ hreq hhost, hreq, hhost]

/-! ## The claims -/

/-- Claim C1: for every token sequence, when a field required for the selected
mode is empty (join: user, password, organizational unit or domain; unjoin:
user or password), `Run` returns false, invokes none of the rename,
join-domain and unjoin-domain primitives, and prints nothing. -/
theorem Run_missing_required (env : Env) (opts : List ParsedOpt)
    (h : missingRequired (collect opts) = true) :
    (Run env opts).1 = false ∧ (Run env opts).2.calls = [] ∧ (Run env opts).2.out = [] := by
  simp [Run, RunFrom, runLocals_missing env _ _ h]

/-- Instance of C1: `-user=u` alone (join mode, no password) is rejected. -/
theorem Run_missing_required_witness :
    missingRequired (collect [tok OPT_USER "u"]) = true ∧
      (Run envOk [tok OPT_USER "u"]).1 = false ∧
      (Run envOk [tok OPT_USER "u"]).2.calls = [] ∧
      (Run envOk [tok OPT_USER "u"]).2.out = [] :=
  ⟨by decide, Run_missing_required envOk [tok OPT_USER "u"] (by decide)⟩

/-- Claim C2, evaluated on the code: for `-user=u -pass=p -ou=o -domain=d` with
`NetJoinDomain` returning status 5, and for `-unjoin -user=u -pass=p` with
`NetUnjoinDomain` returning status 5, `Run` returns true and `main` exits
with code 0 after printing the error text followed by `Success!`. -/
theorem main_exit_zero_on_operation_failure :
    envFail.NetJoinDomain ≠ NERR_Success ∧ envFail.NetUnjoinDomain ≠ NERR_Success ∧
      (Run envFail joinOpts).1 = true ∧
      main envFail joinOpts =
        (0, { out := ["Error 5: Access is denied.", "Success!"],
              calls := [Call.NetJoinDomain "d" "o" "u" "p" 3] }) ∧
      (Run envFail unjoinOpts).1 = true ∧
      main envFail unjoinOpts =
        (0, { out := ["Error 5: Access is denied.", "Success!"],
              calls := [Call.NetUnjoinDomain "u" "p" 4] }) := by
  decide

/-- Claim C3: in join mode (no accepted `-unjoin` token) with user, password,
organizational unit and domain non-empty and host empty, `Run` invokes exactly
one primitive, the join-domain call, with the resolved domain, organizational
unit, user and password; its flags are
`NETSETUP_JOIN_DOMAIN | NETSETUP_ACCT_CREATE`, in which `NETSETUP_ACCT_CREATE`
is set and `NETSETUP_JOIN_WITH_NEW_NAME` is not. -/
theorem Run_join_without_host (env : Env) (opts : List ParsedOpt)
    (hjoin : ∀ o ∈ opts, isOcc OPT_UNJOIN o = false)
    (huser : (collect opts).cszUser.isEmpty = false)
    (hpass : (collect opts).cszPass.isEmpty = false)
    (hou : (collect opts).cszOu.isEmpty = false)
    (hdomain : (collect opts).cszDomain.isEmpty = false)
    (hhost : (collect opts).cszHost.isEmpty = true) :
    ∃ f : Nat,
      (Run env opts).2.calls =
        [Call.NetJoinDomain (collect opts).cszDomain (collect opts).cszOu
          (collect opts).cszUser (collect opts).cszPass f] ∧
      f = NETSETUP_JOIN_DOMAIN ||| NETSETUP_ACCT_CREATE ∧
      f &&& NETSETUP_ACCT_CREATE = NETSETUP_ACCT_CREATE ∧
      f &&& NETSETUP_JOIN_WITH_NEW_NAME = 0 ∧
      (joinCalls (Run env opts).2.calls).length = 1 ∧
      renameCalls (Run env opts).2.calls = [] ∧
      unjoinCalls (Run env opts).2.calls = [] := by
  have hj : (collect opts).fJoin = true := (collect_fJoin opts).2 hjoin
  have hreq : missingRequired (collect opts) = false := by
    simp [missingRequired, hj, huser, hpass, hou, hdomain]
  have hc := (runLocals_join env _ { out := [], calls := [] } hj hreq hhost).2
  refine ⟨NETSETUP_JOIN_DOMAIN ||| NETSETUP_ACCT_CREATE, ?_, rfl, by decide, by decide, ?_, ?_, ?_⟩ <;>
    simp [Run, RunFrom, hc, joinCalls, renameCalls, unjoinCalls]

/-- Instance of C3: `-user=u -pass=p -ou=o -domain=d`. -/
theorem Run_join_without_host_witness :
    ∃ f : Nat,
      (Run envOk joinOpts).2.calls =
        [Call.NetJoinDomain (collect joinOpts).cszDomain (collect joinOpts).cszOu
          (collect joinOpts).cszUser (collect joinOpts).cszPass f] ∧
      f = NETSETUP_JOIN_DOMAIN ||| NETSETUP_ACCT_CREATE ∧
      f &&& NETSETUP_ACCT_CREATE = NETSETUP_ACCT_CREATE ∧
      f &&& NETSETUP_JOIN_WITH_NEW_NAME = 0 ∧
      (joinCalls (Run envOk joinOpts).2.calls).length = 1 ∧
      renameCalls (Run envOk joinOpts).2.calls = [] ∧
      unjoinCalls (Run envOk joinOpts).2.calls = [] :=
  Run_join_without_host envOk joinOpts (by decide) (by decide) (by decide) (by decide)
    (by decide) (by decide)

/-- Claim C4, evaluated on the code: for
`-host=h -user=u -pass=p -ou=o -domain=d` with `SetComputerNameEx` succeeding,
`Run` prints the success line, then the rename-failure line, returns false
and never invokes the join-domain primitive. -/
theorem Run_host_rename_ok_no_join :
    envOk.SetComputerNameEx = true ∧
      Run envOk joinHostOpts =
        (false,
          { out := ["Successfully changed computer name: h",
                    "ERROR: Failed to SetComputerNameEx! Host: h GLE: 0"],
            calls := [Call.SetComputerNameEx "h"] }) ∧
      joinCalls (Run envOk joinHostOpts).2.calls = [] := by
  decide

/-- Claim C5 as stated fails: for `-unjoin -user=u -pass=p -host=h` with the
rename primitive failing, user and password are non-empty and the mode is
unjoin, yet `Run` invokes only the rename primitive and makes no
unjoin-domain call. -/
theorem Run_unjoin_with_host_no_unjoin :
    (collect unjoinHostOpts).fJoin = false ∧
      (collect unjoinHostOpts).cszUser.isEmpty = false ∧
      (collect unjoinHostOpts).cszPass.isEmpty = false ∧
      (collect unjoinHostOpts).cszHost = "h" ∧
      envFail.SetComputerNameEx = false ∧
      (Run envFail unjoinHostOpts).2.calls = [Call.SetComputerNameEx "h"] ∧
      (unjoinCalls (Run envFail unjoinHostOpts).2.calls).length ≠ 1 := by
  decide

/-- Claim C5, amended: in unjoin mode (an accepted `-unjoin` token occurs) with
user and password non-empty and host empty, for every value of the
organizational unit and the domain, `Run` invokes exactly one primitive, the
unjoin-domain call, with the resolved user and password and the flags
`NETSETUP_ACCT_DELETE`; it makes no join-domain and no rename call. -/
theorem Run_unjoin_without_host (env : Env) (opts : List ParsedOpt)
    (hunjoin : ∃ o ∈ opts, isOcc OPT_UNJOIN o = true)
    (huser : (collect opts).cszUser.isEmpty = false)
    (hpass : (collect opts).cszPass.isEmpty = false)
    (hhost : (collect opts).cszHost.isEmpty = true) :
    (Run env opts).2.calls =
        [Call.NetUnjoinDomain (collect opts).cszUser (collect opts).cszPass
          NETSETUP_ACCT_DELETE] ∧
      (unjoinCalls (Run env opts).2.calls).length = 1 ∧
      joinCalls (Run env opts).2.calls = [] ∧
      renameCalls (Run env opts).2.calls = [] := by
  have hj : (collect opts).fJoin = false := by
    cases hf : (collect opts).fJoin with
    | false => rfl
    | true =>
      obtain ⟨o, ho, hocc⟩ := hunjoin
      have := (collect_fJoin opts).1 hf o ho
      simp [hocc] at this
  have hreq : missingRequired (collect opts) = false := by
    simp [missingRequired, hj, huser, hpass]
  have hc := (runLocals_unjoin env _ { out := [], calls := [] } hj hreq hhost).2
  refine ⟨?_, ?_, ?_, ?_⟩ <;>
    simp [Run, RunFrom, hc, joinCalls, renameCalls, unjoinCalls]

/-- Instance of the amended C5: `-unjoin -user=u -pass=p`, with no
organizational unit and no domain. -/
theorem Run_unjoin_without_host_witness :
    (Run envOk unjoinOpts).2.calls =
        [Call.NetUnjoinDomain (collect unjoinOpts).cszUser (collect unjoinOpts).cszPass
          NETSETUP_ACCT_DELETE] ∧
      (unjoinCalls (Run envOk unjoinOpts).2.calls).length = 1 ∧
      joinCalls (Run envOk unjoinOpts).2.calls = [] ∧
      renameCalls (Run envOk unjoinOpts).2.calls = [] :=
  Run_unjoin_without_host envOk unjoinOpts ⟨tok OPT_UNJOIN "", by decide, by decide⟩
    (by decide) (by decide) (by decide)

/-- Claim C6: in join mode (no accepted `-unjoin` token) with user, password, organizational unit and domain
non-empty, a non-empty host and the rename primitive reporting failure, `Run`
makes no join-domain call, prints the rename-failure message and nothing else,
and returns false. -/
theorem Run_join_rename_failure (env : Env) (opts : List ParsedOpt)
    (hjoin : ∀ o ∈ opts, isOcc OPT_UNJOIN o = false)
    (huser : (collect opts).cszUser.isEmpty = false)
    (hpass : (collect opts).cszPass.isEmpty = false)
    (hou : (collect opts).cszOu.isEmpty = false)
    (hdomain : (collect opts).cszDomain.isEmpty = false)
    (hhost : (collect opts).cszHost.isEmpty = false)
    (hfail : env.SetComputerNameEx = false) :
    (Run env opts).1 = false ∧
      (Run env opts).2.out =
        ["ERROR: Failed to SetComputerNameEx! Host: " ++ (collect opts).cszHost ++ " GLE: "
          ++ fmt_ld env.GetLastError] ∧
      joinCalls (Run env opts).2.calls = [] := by
  have hj : (collect opts).fJoin = true := (collect_fJoin opts).2 hjoin
  have hreq : missingRequired (collect opts) = false := by
    simp [missingRequired, hj, huser, hpass, hou, hdomain]
  simp [Run, RunFrom, runLocals_host env _ _ hreq hhost, hfail, joinCalls,
    renameFailureMessage]

/-- Instance of C6: `-host=h -user=u -pass=p -ou=o -domain=d` with the rename
failing with error 5. -/
theorem Run_join_rename_failure_witness :
    (Run envFail joinHostOpts).1 = false ∧
      (Run envFail joinHostOpts).2.out =
        ["ERROR: Failed to SetComputerNameEx! Host: " ++ (collect joinHostOpts).cszHost
          ++ " GLE: " ++ fmt_ld envFail.GetLastError] ∧
      joinCalls (Run envFail joinHostOpts).2.calls = [] :=
  Run_join_rename_failure envFail joinHostOpts (by decide) (by decide) (by decide)
    (by decide) (by decide) (by decide) (by decide)

/-- Claim C8: a token the parser reports as an error is skipped without ending
the loop. Inserting such a token at any position of any token sequence leaves
the resolved record unchanged, the tokens after it are processed from the
state reached before it, and the whole run is unchanged. -/
theorem collect_skips_error_token (xs ys : List ParsedOpt) (bad : ParsedOpt)
    (hbad : bad.LastError ≠ SO_SUCCESS) :
    collect (xs ++ bad :: ys) = collect (xs ++ ys) ∧
      collect (xs ++ bad :: ys) = collectFrom (collect xs) ys ∧
      ∀ env : Env, Run env (xs ++ bad :: ys) = Run env (xs ++ ys) := by
  have h1 : collect (xs ++ bad :: ys) = collectFrom (collect xs) ys := by
    unfold collect
    rw [collectFrom_append]
    simp [collectFrom, List.foldl_cons, loopBody_of_error _ _ hbad]
  have h2 : collect (xs ++ ys) = collectFrom (collect xs) ys := by
    unfold collect
    rw [collectFrom_append]
  refine ⟨h1.trans h2.symm, h1, fun env => ?_⟩
  simp [Run, RunFrom, h1, h2]

/-- Instance of C8: `-user=a -bogus=1 -user=b` resolves like
`-user=a -user=b`. -/
theorem collect_skips_error_token_witness :
    bogus.LastError ≠ SO_SUCCESS ∧
      collect ([tok OPT_USER "a"] ++ bogus :: [tok OPT_USER "b"]) =
        collect ([tok OPT_USER "a"] ++ [tok OPT_USER "b"]) ∧
      collect ([tok OPT_USER "a"] ++ bogus :: [tok OPT_USER "b"]) =
        collectFrom (collect [tok OPT_USER "a"]) [tok OPT_USER "b"] ∧
      ∀ env : Env, Run env ([tok OPT_USER "a"] ++ bogus :: [tok OPT_USER "b"]) =
        Run env ([tok OPT_USER "a"] ++ [tok OPT_USER "b"]) :=
  ⟨by decide, collect_skips_error_token [tok OPT_USER "a"] [tok OPT_USER "b"] bogus (by decide)⟩

/-- Claim C9: the password is never printed. For every two token sequences
that differ only in the non-empty values given to `-pass`, run against the
same results of the primitives, `Run` returns the same value and prints the
same text. -/
theorem Run_output_independent_of_password (env : Env) (xs ys : List ParsedOpt)
    (h : differOnlyInPass xs ys = true) :
    (Run env xs).1 = (Run env ys).1 ∧ (Run env xs).2.out = (Run env ys).2.out := by
  have hinit : agreeExceptPass Locals.init Locals.init := by simp [agreeExceptPass]
  exact runLocals_agreeExceptPass env _ _ _
    (collectFrom_agreeExceptPass xs ys _ _ hinit h)

/-- Instance of C9: two failing join runs whose passwords are `p` and
`secret`. -/
theorem Run_output_independent_of_password_witness :
    differOnlyInPass joinOpts
        [tok OPT_USER "u", tok OPT_PASS "secret", tok OPT_OU "o", tok OPT_DOMAIN "d"] = true ∧
      (Run envFail joinOpts).1 =
        (Run envFail
          [tok OPT_USER "u", tok OPT_PASS "secret", tok OPT_OU "o", tok OPT_DOMAIN "d"]).1 ∧
      (Run envFail joinOpts).2.out =
        (Run envFail
          [tok OPT_USER "u", tok OPT_PASS "secret", tok OPT_OU "o", tok OPT_DOMAIN "d"]).2.out :=
  ⟨by decide, Run_output_independent_of_password envFail joinOpts
    [tok OPT_USER "u", tok OPT_PASS "secret", tok OPT_OU "o", tok OPT_DOMAIN "d"] (by decide)⟩

/-- Claim C10: whenever host is non-empty and the fields required for the mode
are non-empty, in join and in unjoin mode and for either result of the rename
primitive, `Run` makes exactly one rename call, prints the rename-failure
message last, returns false, and makes no join-domain and no unjoin-domain
call. -/
theorem Run_host_always_fails (env : Env) (opts : List ParsedOpt)
    (hreq : missingRequired (collect opts) = false)
    (hhost : (collect opts).cszHost.isEmpty = false) :
    (Run env opts).2.calls = [Call.SetComputerNameEx (collect opts).cszHost] ∧
      (renameCalls (Run env opts).2.calls).length = 1 ∧
      (Run env opts).2.out.getLast? =
        some ("ERROR: Failed to SetComputerNameEx! Host: " ++ (collect opts).cszHost
          ++ " GLE: " ++ fmt_ld env.GetLastError) ∧
      (Run env opts).1 = false ∧
      joinCalls (Run env opts).2.calls = [] ∧
      unjoinCalls (Run env opts).2.calls = [] := by
  simp [Run, RunFrom, runLocals_host env _ _ hreq hhost, joinCalls, renameCalls,
    unjoinCalls, renameFailureMessage]

/-- Instance of C10: `-unjoin -user=u -pass=p -host=h` with the rename
succeeding. -/
theorem Run_host_always_fails_witness :
    (Run envOk unjoinHostOpts).2.calls =
        [Call.SetComputerNameEx (collect unjoinHostOpts).cszHost] ∧
      (renameCalls (Run envOk unjoinHostOpts).2.calls).length = 1 ∧
      (Run envOk unjoinHostOpts).2.out.getLast? =
        some ("ERROR: Failed to SetComputerNameEx! Host: " ++ (collect unjoinHostOpts).cszHost
          ++ " GLE: " ++ fmt_ld envOk.GetLastError) ∧
      (Run envOk unjoinHostOpts).1 = false ∧
      joinCalls (Run envOk unjoinHostOpts).2.calls = [] ∧
      unjoinCalls (Run envOk unjoinHostOpts).2.calls = [] :=
  Run_host_always_fails envOk unjoinHostOpts (by decide) (by decide)

end KCJoin
